import Mathlib

/-!
Verification of the request-orchestration core of the Studio-Photo repository
(`src/ai-studio/services/geminiService.ts` plus the type constants in
`src/ai-studio/types.ts`).

The development shallowly embeds, straight from the TypeScript source:

* the serial request queue (`requestQueue` / `isProcessing` / `processQueue` /
  `enqueue`), modelled as an event-driven state machine with explicit
  timestamps so the 1000 ms cool-down `setTimeout(processQueue, 1000)` can be
  reasoned about;
* the retry policy `withRetry` together with its rate-limit classifier
  (JSON-body extraction via the `/{.*}/` regex, a small JSON parser standing
  in for `JSON.parse`, and the substring fallbacks);
* the prompt builders of the six operations (`generateStudioPhoto`,
  `inpaintImage`, `describeImage`, `analyzeArtReference`, `swapFace`,
  `manipulateScene`);
* the per-operation response interpretation, including the safety-block
  branch and the text/image accumulation loops.
-/

namespace StudioPhoto

/-! ## Generic string helpers (ASCII-level models of the JS string ops used) -/

/-- `charsStartsWith pat cs` is true when `pat` is an initial segment of `cs`. -/
def charsStartsWith : List Char → List Char → Bool
  | [], _ => true
  | _ :: _, [] => false
  | a :: as, b :: bs => a == b && charsStartsWith as bs

/-- Substring search over character lists (`String.prototype.includes`). -/
def charsContainsSub (pat : List Char) : List Char → Bool
  | [] => charsStartsWith pat []
  | c :: rest => charsStartsWith pat (c :: rest) || charsContainsSub pat rest

/-- `containsSub s pat` models JS `s.includes(pat)`. -/
def containsSub (s pat : String) : Bool :=
  charsContainsSub pat.data s.data

/-- `joinSep sep l` models JS `Array.prototype.join(sep)`. -/
def joinSep (sep : String) : List String → String
  | [] => ""
  | [x] => x
  | x :: xs => x ++ sep ++ joinSep sep xs

/-! ## The serial request queue (`geminiService.ts` lines 48–87)

The queue is the global pair `requestQueue : (() => void)[]` / `isProcessing :
bool`.  `enqueue` pushes a task and synchronously calls `processQueue`; a task,
when it settles, clears `isProcessing` and schedules `processQueue` again after
a 1000 ms `setTimeout`.  We model the possible event-loop executions as finite
sequences of externally-scheduled events, each carrying the (millisecond)
time at which it occurs:

* `enq j t` — a caller invokes `enqueue` for job `j` at time `t`
  (push + synchronous `processQueue`);
* `settle t` — the currently running task's `apiCall` promise settles at
  time `t` (its `finally` block runs: `isProcessing = false` and
  `setTimeout(processQueue, 1000)` is scheduled);
* `fire t` — the oldest pending cool-down timer fires at time `t`
  (only possible once its deadline has passed; otherwise a no-op).

Retries inside `withRetry` happen inside one task, so a unit of work is
"running" from its `Start` until its single `settle`.  The state keeps history
lists (`enqueued`, `started`, `settledL`) so that ordering guarantees can be
stated about complete executions. -/

/-- Why `processQueue` started a unit of work: synchronously from `enqueue`,
or from the cool-down `setTimeout` callback. -/
inductive Cause where
  | byEnqueue
  | byFire
deriving DecidableEq, Repr

/-- A record of one started unit of work: its job id, the time it started and
which code path started it. -/
structure StartRec where
  job : Nat
  time : Nat
  cause : Cause
deriving DecidableEq, Repr

/-- The global queue state plus execution history. -/
structure QState where
  /-- `requestQueue`: job ids of pushed-but-not-yet-started tasks, FIFO. -/
  queue : List Nat
  /-- Jobs whose task has been started and has not settled yet. -/
  running : List Nat
  /-- The `isProcessing` flag. -/
  isProcessing : Bool
  /-- Deadlines of pending `setTimeout(processQueue, 1000)` timers (FIFO). -/
  timers : List Nat
  /-- History: job ids in `enqueue` order. -/
  enqueued : List Nat
  /-- History: started units of work, in start order. -/
  started : List StartRec
  /-- History: settled units of work with their settle times, in order. -/
  settledL : List (Nat × Nat)
deriving DecidableEq, Repr

/-- The initial (module-load) state: empty queue, `isProcessing = false`. -/
def initQ : QState :=
  { queue := [], running := [], isProcessing := false, timers := [],
    enqueued := [], started := [], settledL := [] }

/-- `processQueue` (lines 53–62): return if `isProcessing` or the queue is
empty; otherwise set `isProcessing`, shift the next task and run it (the task
body runs synchronously up to its first `await`, so the unit of work starts
now, at time `t`). -/
def processQueue (t : Nat) (c : Cause) (s : QState) : QState :=
  if s.isProcessing then s
  else
    match s.queue with
    | [] => s
    | j :: rest =>
        { s with
          queue := rest
          running := s.running ++ [j]
          isProcessing := true
          started := s.started ++ [⟨j, t, c⟩] }

/-- An externally scheduled event-loop event, with its time in ms. -/
inductive QEvent where
  | enq (j t : Nat)
  | settle (t : Nat)
  | fire (t : Nat)
deriving DecidableEq, Repr

/-- One event-loop step.  `enq` models `enqueue` (lines 69–86): push the task
then call `processQueue` synchronously.  `settle` models the running task's
`try/catch/finally` completing: the promise is resolved/rejected,
`isProcessing` is cleared and a 1000 ms cool-down timer is scheduled.  `fire`
models an expired cool-down timer's callback `processQueue` running. -/
def stepQ : QEvent → QState → QState
  | .enq j t, s =>
      processQueue t .byEnqueue
        { s with queue := s.queue ++ [j], enqueued := s.enqueued ++ [j] }
  | .settle t, s =>
      match s.running with
      | [] => s
      | j :: rest =>
          { s with
            running := rest
            isProcessing := false
            timers := s.timers ++ [t + 1000]
            settledL := s.settledL ++ [(j, t)] }
  | .fire t, s =>
      match s.timers with
      | [] => s
      | d :: rest =>
          if d ≤ t then processQueue t .byFire { s with timers := rest } else s

/-- Run the queue machine from the initial state over a list of events. -/
def runQ (evs : List QEvent) : QState :=
  evs.foldl (fun s e => stepQ e s) initQ

/-- Event times are nondecreasing along the list (a physically possible
schedule). -/
def validTimes : Nat → List QEvent → Bool
  | _, [] => true
  | last, e :: rest =>
      match e with
      | .enq _ t => last ≤ t && validTimes t rest
      | .settle t => last ≤ t && validTimes t rest
      | .fire t => last ≤ t && validTimes t rest

/-- The combined state invariant of the queue machine. -/
def QInv (s : QState) : Prop :=
  (s.isProcessing = !s.running.isEmpty) ∧
  s.running.length ≤ 1 ∧
  s.enqueued = s.started.map StartRec.job ++ s.queue ∧
  s.started.map StartRec.job = s.settledL.map Prod.fst ++ s.running ∧
  (∀ d ∈ s.timers, ∃ p ∈ s.settledL, d = p.2 + 1000) ∧
  (∀ r ∈ s.started, r.cause = Cause.byFire →
    ∃ p ∈ s.settledL, p.2 + 1000 ≤ r.time)

theorem qinv_init : QInv initQ := by
  refine ⟨rfl, by simp [initQ], by simp [initQ], by simp [initQ], ?_, ?_⟩ <;>
    simp [initQ]

theorem qinv_processQueue (t : Nat) (c : Cause) (s : QState) (h : QInv s)
    (hc : c = Cause.byFire → ∃ p ∈ s.settledL, p.2 + 1000 ≤ t) :
    QInv (processQueue t c s) := by
  obtain ⟨q, run, proc, tm, enql, stl, sel⟩ := s
  obtain ⟨h1, h2, h3, h4, h5, h6⟩ := h
  simp only at h1 h2 h3 h4 h5 h6 hc
  unfold processQueue
  cases proc with
  | true => exact ⟨h1, h2, h3, h4, h5, h6⟩
  | false =>
    cases q with
    | nil => exact ⟨h1, h2, h3, h4, h5, h6⟩
    | cons j rest =>
      have hrun : run = [] := by
        cases run with
        | nil => rfl
        | cons a l => simp at h1
      subst hrun
      simp only
      refine ⟨by simp, by simp, ?_, ?_, h5, ?_⟩
      · simpa using h3
      · simpa using h4
      · intro r hr hc'
        rcases List.mem_append.mp hr with hmem | hmem
        · exact h6 r hmem hc'
        · simp at hmem
          subst hmem
          exact hc hc'

theorem qinv_step (e : QEvent) (s : QState) (h : QInv s) : QInv (stepQ e s) := by
  cases e with
  | enq j t =>
      obtain ⟨h1, h2, h3, h4, h5, h6⟩ := h
      apply qinv_processQueue
      · refine ⟨h1, h2, ?_, h4, h5, h6⟩
        simp [h3]
      · intro hc; cases hc
  | settle t =>
      obtain ⟨q, run, proc, tm, enql, stl, sel⟩ := s
      obtain ⟨h1, h2, h3, h4, h5, h6⟩ := h
      simp only at h1 h2 h3 h4 h5 h6
      cases run with
      | nil =>
        exact ⟨h1, h2, h3, h4, h5, h6⟩
      | cons j rest =>
        have hrest : rest = [] := by
          simpa using h2
        subst hrest
        simp only [stepQ]
        refine ⟨by simp, by simp, by simpa using h3, ?_, ?_, ?_⟩
        · simpa using h4
        · intro d hd
          rcases List.mem_append.mp hd with hmem | hmem
          · obtain ⟨p, hp, hdp⟩ := h5 d hmem
            exact ⟨p, List.mem_append_left _ hp, hdp⟩
          · simp at hmem
            exact ⟨(j, t), by simp, by simp [hmem]⟩
        · intro r hrm hc'
          obtain ⟨p, hp, hpt⟩ := h6 r hrm hc'
          exact ⟨p, List.mem_append_left _ hp, hpt⟩
  | fire t =>
      obtain ⟨q, run, proc, tm, enql, stl, sel⟩ := s
      obtain ⟨h1, h2, h3, h4, h5, h6⟩ := h
      simp only at h1 h2 h3 h4 h5 h6
      cases tm with
      | nil =>
        exact ⟨h1, h2, h3, h4, h5, h6⟩
      | cons d rest =>
        simp only [stepQ]
        by_cases hd : d ≤ t
        · rw [if_pos hd]
          apply qinv_processQueue
          · refine ⟨h1, h2, h3, h4, ?_, h6⟩
            intro d' hd'
            exact h5 d' (List.mem_cons_of_mem _ hd')
          · intro _
            obtain ⟨p, hp, hdp⟩ := h5 d (List.mem_cons_self _ _)
            exact ⟨p, hp, by omega⟩
        · rw [if_neg hd]
          exact ⟨h1, h2, h3, h4, h5, h6⟩

theorem qinv_runQ (evs : List QEvent) : QInv (runQ evs) := by
  have : ∀ s, QInv s → QInv (evs.foldl (fun s e => stepQ e s) s) := by
    induction evs with
    | nil => intro s h; exact h
    | cons e rest ih =>
        intro s h
        exact ih _ (qinv_step e s h)
  exact this initQ qinv_init

/-- C1: the serial job queue is single-flight with FIFO start order.  After any
event-loop execution: the units of work that settled, in settle order, followed
by the (at most one) unit currently in flight, are exactly the started units in
start order — so a later unit's start can only be appended once every earlier
started unit has settled, i.e. for submitted jobs J1 before J2, J1's unit of
work (with all its retries, which live inside the single task) starts and fully
settles before J2's starts; and the started units in start order followed by
the still-queued jobs are exactly the jobs in submission order, so starts
happen in FIFO submission order. -/
theorem queue_fifo_single_flight (evs : List QEvent) :
    (runQ evs).settledL.map Prod.fst ++ (runQ evs).running
      = (runQ evs).started.map StartRec.job ∧
    (runQ evs).started.map StartRec.job ++ (runQ evs).queue
      = (runQ evs).enqueued ∧
    (runQ evs).running.length ≤ 1 := by
  obtain ⟨h1, h2, h3, h4, h5, h6⟩ := qinv_runQ evs
  exact ⟨h4.symm, h3.symm, h2⟩

/-- C2 counterexample: the fixed cool-down after a unit of work settles is NOT
guaranteed when a new job is enqueued during the cool-down window.  In the
schedule below, job 1 is enqueued at t = 0 and settles at t = 5; job 2 is
enqueued at t = 10, and `enqueue`'s synchronous `processQueue` call starts it
immediately at t = 10 — the `isProcessing` flag is already false — even though
the 1000 ms cool-down timer scheduled at t = 5 has not fired.  So a next unit
of work starts 5 ms (not ≥ 1000 ms) after the previous one settled. -/
theorem queue_cooldown_bypass :
    validTimes 0 [QEvent.enq 1 0, QEvent.settle 5, QEvent.enq 2 10] = true ∧
    (runQ [QEvent.enq 1 0, QEvent.settle 5, QEvent.enq 2 10]).settledL
      = [(1, 5)] ∧
    (runQ [QEvent.enq 1 0, QEvent.settle 5, QEvent.enq 2 10]).started
      = [⟨1, 0, Cause.byEnqueue⟩, ⟨2, 10, Cause.byEnqueue⟩] ∧
    10 < 5 + 1000 := by
  refine ⟨by decide, by decide, by decide, by decide⟩

/-- C2 (amended): the cool-down is honoured only for starts performed by the
cool-down timer's own `processQueue` callback: every unit of work started by a
fired timer starts at least 1000 ms after some earlier settle (the one that
scheduled that timer).  A unit whose start is triggered synchronously by a new
`enqueue` call can start immediately after the previous unit settles,
bypassing the cool-down (see the counterexample). -/
theorem queue_cooldown_for_timer_starts (evs : List QEvent) (r : StartRec)
    (hr : r ∈ (runQ evs).started) (hc : r.cause = Cause.byFire) :
    ∃ p ∈ (runQ evs).settledL, p.2 + 1000 ≤ r.time := by
  obtain ⟨h1, h2, h3, h4, h5, h6⟩ := qinv_runQ evs
  exact h6 r hr hc

/-- Witness for the amended C2 theorem: in the schedule `enq 1 @0, enq 2 @1,
settle @5, fire @1005`, job 2 is started by the timer at t = 1005, and the
theorem yields a settle (job 1 at t = 5) at least 1000 ms before it. -/
theorem queue_cooldown_for_timer_starts_witness :
    ∃ p ∈ (runQ [QEvent.enq 1 0, QEvent.enq 2 1, QEvent.settle 5,
        QEvent.fire 1005]).settledL, p.2 + 1000 ≤ 1005 :=
  queue_cooldown_for_timer_starts
    [QEvent.enq 1 0, QEvent.enq 2 1, QEvent.settle 5, QEvent.fire 1005]
    ⟨2, 1005, Cause.byFire⟩ (by decide) (by decide)

/-! ## JSON values and a fuel-based parser (model of `JSON.parse`)

`withRetry` tries to `JSON.parse` the `/{.*}/` portion of an error message
(lines 116–127) and `analyzeArtReference` parses the whole response text
(lines 657–658).  We model `JSON.parse` with a small recursive-descent parser.
Restrictions of the model (each makes the parser fail where `JSON.parse` might
succeed, in which case the classifier's substring fallback still applies):
numbers are integers (no fraction/exponent) and string escapes cover the
common single-character escapes but not `\u` sequences. -/

inductive Json where
  | null
  | bool (b : Bool)
  | num (n : Int)
  | str (s : String)
  | arr (elems : List Json)
  | obj (fields : List (String × Json))
deriving Repr

/-- JSON whitespace. -/
def isWsChar (c : Char) : Bool :=
  c == ' ' || c == '\t' || c == '\n' || c == '\r'

/-- Drop leading JSON whitespace. -/
def skipWs : List Char → List Char
  | [] => []
  | c :: rest => if isWsChar c then skipWs rest else c :: rest

/-- Parse the body of a string literal (after the opening quote), returning
the decoded characters and the remainder after the closing quote. -/
def parseStrChars : Nat → List Char → Option (List Char × List Char)
  | 0, _ => none
  | _, [] => none
  | fuel + 1, c :: rest =>
    if c == '"' then some ([], rest)
    else if c == '\\' then
      match rest with
      | [] => none
      | e :: rest2 =>
        let esc : Option Char :=
          if e == '"' then some '"'
          else if e == '\\' then some '\\'
          else if e == '/' then some '/'
          else if e == 'n' then some '\n'
          else if e == 't' then some '\t'
          else if e == 'r' then some '\r'
          else if e == 'b' then some (Char.ofNat 8)
          else if e == 'f' then some (Char.ofNat 12)
          else none
        match esc with
        | none => none
        | some ch =>
          match parseStrChars fuel rest2 with
          | none => none
          | some (cs, rem) => some (ch :: cs, rem)
    else
      match parseStrChars fuel rest with
      | none => none
      | some (cs, rem) => some (c :: cs, rem)

/-- Split off a maximal run of leading decimal digits. -/
def takeDigits : List Char → List Char × List Char
  | [] => ([], [])
  | c :: rest =>
    if c.isDigit then
      let (ds, rem) := takeDigits rest
      (c :: ds, rem)
    else ([], c :: rest)

/-- Decimal digits to a natural number. -/
def digitsToNat (ds : List Char) : Nat :=
  ds.foldl (fun acc c => 10 * acc + (c.toNat - 48)) 0

mutual

/-- Parse one JSON value, returning it and the unconsumed remainder. -/
def parseVal : Nat → List Char → Option (Json × List Char)
  | 0, _ => none
  | fuel + 1, cs =>
    match skipWs cs with
    | [] => none
    | c :: rest =>
      if c == '{' then
        parseObjFields fuel (skipWs rest)
      else if c == '[' then
        parseArrElems fuel (skipWs rest)
      else if c == '"' then
        match parseStrChars (rest.length + 1) rest with
        | none => none
        | some (cs, rem) => some (.str (String.mk cs), rem)
      else if c == 't' then
        match rest with
        | 'r' :: 'u' :: 'e' :: rem => some (.bool true, rem)
        | _ => none
      else if c == 'f' then
        match rest with
        | 'a' :: 'l' :: 's' :: 'e' :: rem => some (.bool false, rem)
        | _ => none
      else if c == 'n' then
        match rest with
        | 'u' :: 'l' :: 'l' :: rem => some (.null, rem)
        | _ => none
      else if c == '-' then
        match takeDigits rest with
        | ([], _) => none
        | (ds, rem) => some (.num (-(digitsToNat ds : Int)), rem)
      else if c.isDigit then
        match takeDigits (c :: rest) with
        | ([], _) => none
        | (ds, rem) => some (.num (digitsToNat ds : Int), rem)
      else none

/-- Parse the fields of an object, positioned just after `{` (whitespace
already skipped); consumes through the closing `}`. -/
def parseObjFields : Nat → List Char → Option (Json × List Char)
  | 0, _ => none
  | fuel + 1, cs =>
    match cs with
    | '}' :: rem => some (.obj [], rem)
    | '"' :: rest =>
      match parseStrChars (rest.length + 1) rest with
      | none => none
      | some (key, afterKey) =>
        match skipWs afterKey with
        | ':' :: afterColon =>
          match parseVal fuel afterColon with
          | none => none
          | some (v, afterVal) =>
            match skipWs afterVal with
            | ',' :: afterComma =>
              match parseObjFields fuel (skipWs afterComma) with
              | some (.obj fs, rem) => some (.obj ((String.mk key, v) :: fs), rem)
              | _ => none
            | '}' :: rem => some (.obj [(String.mk key, v)], rem)
            | _ => none
        | _ => none
    | _ => none

/-- Parse the elements of an array, positioned just after `[` (whitespace
already skipped); consumes through the closing `]`. -/
def parseArrElems : Nat → List Char → Option (Json × List Char)
  | 0, _ => none
  | fuel + 1, cs =>
    match cs with
    | ']' :: rem => some (.arr [], rem)
    | _ =>
      match parseVal fuel cs with
      | none => none
      | some (v, afterVal) =>
        match skipWs afterVal with
        | ',' :: afterComma =>
          match parseArrElems fuel (skipWs afterComma) with
          | some (.arr vs, rem) => some (.arr (v :: vs), rem)
          | _ => none
        | ']' :: rem => some (.arr [v], rem)
        | _ => none

end

/-- Model of `JSON.parse`: parse a complete JSON document; fail if anything
but whitespace remains. -/
def parseJsonStr (s : String) : Option Json :=
  match parseVal (s.data.length + 1) s.data with
  | some (j, rem) => if skipWs rem matches [] then some j else none
  | none => none

/-! ## The rate-limit classifier and `withRetry` (lines 90–153) -/

/-- Object field lookup with `JSON.parse` duplicate-key semantics (the last
occurrence of a key wins). -/
def lookupLast : List (String × Json) → String → Option Json
  | [], _ => none
  | (k', v) :: rest, k =>
    match lookupLast rest k with
    | some r => some r
    | none => if k' == k then some v else none

/-- The first match of the regex `/{.*}/` in a message: the earliest `{` that
is followed by a `}` with no line terminator in between, extended greedily to
the last such `}` ( `.` does not match `\n`/`\r`).  Per line this is the span
from the first `{` to the last `}`, when the former precedes the latter. -/
def lineBraceSpan (cs : List Char) : Option (List Char) :=
  match cs.findIdx? (· == '{') with
  | none => none
  | some p =>
    match cs.reverse.findIdx? (· == '}') with
    | none => none
    | some rq =>
      let q := cs.length - 1 - rq
      if p < q then some ((cs.drop p).take (q - p + 1)) else none

/-- Split a character list at line terminators (`\n` / `\r`), which the `.`
of the regex does not match. -/
def splitLines : List Char → List (List Char)
  | [] => [[]]
  | c :: rest =>
    if c == '\n' || c == '\r' then [] :: splitLines rest
    else
      match splitLines rest with
      | [] => [[c]]
      | l :: ls => (c :: l) :: ls

/-- `e.message.match(/{.*}/)` (line 118): the matched JSON-looking span. -/
def extractJsonSpan (msg : String) : Option String :=
  (splitLines msg.data).findSome?
    (fun line => (lineBraceSpan line).map (fun cs => String.mk cs))

/-- `errorBody.error && (errorBody.error.code === 429 || errorBody.error.status
=== 'RESOURCE_EXHAUSTED')` (line 121). -/
def rateLimitJsonBody (j : Json) : Bool :=
  match j with
  | .obj fields =>
    match lookupLast fields "error" with
    | some (.obj efields) =>
      (match lookupLast efields "code" with
       | some (.num n) => n == 429
       | _ => false) ||
      (match lookupLast efields "status" with
       | some (.str s) => s == "RESOURCE_EXHAUSTED"
       | _ => false)
    | _ => false
  | _ => false

/-- The structured classification path (lines 116–127): extract `/{.*}/`,
`JSON.parse` it, inspect `error.code` / `error.status`. -/
def structuredRateLimit (msg : String) : Bool :=
  match extractJsonSpan msg with
  | some body =>
    match parseJsonStr body with
    | some j => rateLimitJsonBody j
    | none => false
  | none => false

/-- The full rate-limit classifier of `withRetry` (lines 112–133): the
structured path, then the substring fallbacks `'429'`, `'RESOURCE_EXHAUSTED'`
and `'rate limit'`. -/
def isRateLimitError (msg : String) : Bool :=
  structuredRateLimit msg || containsSub msg "429"
    || containsSub msg "RESOURCE_EXHAUSTED" || containsSub msg "rate limit"

/-- The classifier as the spec/claim describes it (refinement reference, for
comparison with `isRateLimitError`): "a numeric code 429 or a
RESOURCE_EXHAUSTED marker (checked both via structured parsing of an embedded
status payload and via plain substring fallback)" — note: no `'rate limit'`
substring. -/
def claimRateLimitClassifier (msg : String) : Bool :=
  structuredRateLimit msg || containsSub msg "429"
    || containsSub msg "RESOURCE_EXHAUSTED"

/-- The user-facing message thrown when the final attempt is rate-limited
(line 138). -/
def rateLimitFinalMsg : String :=
  "The AI service is temporarily unavailable due to high demand. Please try again in a few moments. (Rate limit exceeded)"

/-- The observable outcome of a `withRetry` run: the settled value (`.ok`) or
thrown message (`.error`), the number of times the wrapped `apiCall` was
invoked and the backoff delays slept (in order). -/
structure RetryOutcome (α : Type) where
  result : Except String α
  attemptsMade : Nat
  delays : List Nat
deriving Repr

/-- The `for (attempt = 0; attempt < maxRetries; attempt++)` loop of
`withRetry` (lines 107–149).  `apiCall i` is the outcome of the `i`-th
invocation of the wrapped unit of work; `jitter i` the value of
`Math.random() * 1000` on the `i`-th failure; `fuel` the number of loop
iterations left (`maxRetries - attempt`), and `lastError` the JS `lastError`
variable (used by the unreachable-guard throw after the loop, line 152). -/
def withRetryLoop {α : Type} (apiCall : Nat → Except String α)
    (maxRetries initialDelay backoffFactor : Nat) (jitter : Nat → Nat)
    (lastError : Option String) : Nat → Nat → RetryOutcome α
  | _, 0 =>
    ⟨.error (lastError.getD "An unknown error occurred after multiple retries."),
      0, []⟩
  | attempt, fuel + 1 =>
    match apiCall attempt with
    | .ok v => ⟨.ok v, 1, []⟩
    | .error e =>
      if isRateLimitError e then
        if attempt = maxRetries - 1 then
          ⟨.error rateLimitFinalMsg, 1, []⟩
        else
          let d := initialDelay * backoffFactor ^ attempt + jitter attempt
          let r := withRetryLoop apiCall maxRetries initialDelay backoffFactor
            jitter (some e) (attempt + 1) fuel
          ⟨r.result, r.attemptsMade + 1, d :: r.delays⟩
      else
        ⟨.error e, 1, []⟩

/-- `withRetry(apiCall, maxRetries = 5, initialDelay = 3000, backoffFactor =
2)` (lines 99–153). -/
def withRetry {α : Type} (apiCall : Nat → Except String α)
    (maxRetries initialDelay backoffFactor : Nat) (jitter : Nat → Nat) :
    RetryOutcome α :=
  withRetryLoop apiCall maxRetries initialDelay backoffFactor jitter none 0
    maxRetries

theorem withRetryLoop_first_nonRL {α : Type} (apiCall : Nat → Except String α)
    (mR iD bF : Nat) (jit : Nat → Nat) :
    ∀ (k attempt fuel : Nat) (le : Option String) (e : String),
      k < fuel →
      apiCall (attempt + k) = .error e →
      isRateLimitError e = false →
      (attempt + fuel ≤ mR) →
      (∀ i, i < k → ∃ ei, apiCall (attempt + i) = .error ei ∧
        isRateLimitError ei = true) →
      (withRetryLoop apiCall mR iD bF jit le attempt fuel).result = .error e ∧
      (withRetryLoop apiCall mR iD bF jit le attempt fuel).attemptsMade = k + 1 ∧
      (withRetryLoop apiCall mR iD bF jit le attempt fuel).delays.length = k := by
  intro k
  induction k with
  | zero =>
    intro attempt fuel le e hk hfail hnot _ _
    match fuel, hk with
    | f + 1, _ =>
      simp only [Nat.add_zero] at hfail
      simp [withRetryLoop, hfail, hnot]
  | succ k ih =>
    intro attempt fuel le e hk hfail hnot hbound hprev
    match fuel, hk with
    | f + 1, hk =>
      obtain ⟨e0, he0, hrl0⟩ := hprev 0 (Nat.succ_pos k)
      simp only [Nat.add_zero] at he0
      have hne : ¬(attempt = mR - 1) := by omega
      have harith : attempt + 1 + k = attempt + (k + 1) := by omega
      have ih' := ih (attempt + 1) f (some e0) e (by omega)
        (by rw [harith]; exact hfail) hnot (by omega)
        (fun i hi => by
          have := hprev (i + 1) (by omega)
          have h2 : attempt + 1 + i = attempt + (i + 1) := by omega
          rw [h2]; exact this)
      simp only [withRetryLoop, he0, hrl0, if_true, if_neg hne]
      refine ⟨ih'.1, ?_, ?_⟩
      · simp [ih'.2.1]
      · simp [ih'.2.2]

/-- C3 counterexample: a failure whose message is `"hit the rate limit"`
carries no 429 code and no RESOURCE_EXHAUSTED marker (structured or
substring) — the claim's notion of "not classified as a rate-limit error" —
yet `withRetry` does not re-throw it immediately: the code's classifier also
accepts the substring `'rate limit'` (line 130), so the unit of work is
invoked all 5 times with 4 backoff delays. -/
theorem withRetry_nonRL_counterexample :
    claimRateLimitClassifier "hit the rate limit" = false ∧
    (withRetry (fun _ => (Except.error "hit the rate limit" : Except String Unit))
      5 3000 2 (fun _ => 0)).attemptsMade = 5 ∧
    (withRetry (fun _ => (Except.error "hit the rate limit" : Except String Unit))
      5 3000 2 (fun _ => 0)).delays.length = 4 := by
  refine ⟨by decide, by decide, by decide⟩

/-- C3 (amended): for every failure that the code's rate-limit detector does
not classify as a rate-limit error — no 429 code or RESOURCE_EXHAUSTED marker
(structured or substring) and, additionally to the claim's wording, no
`'rate limit'` substring — `withRetry` re-throws that failure immediately
after the failing attempt: if the first `k` attempts fail rate-limited and
attempt `k` fails with a non-rate-limit error `e`, the run settles with
exactly `e`, exactly `k + 1` invocations and no delay after the failing
attempt (`k` delays in total, all from the earlier rate-limited attempts). -/
theorem withRetry_nonRL_immediate {α : Type} (apiCall : Nat → Except String α)
    (mR iD bF : Nat) (jit : Nat → Nat) (k : Nat) (e : String)
    (hk : k < mR)
    (hfail : apiCall k = .error e)
    (hnot : isRateLimitError e = false)
    (hprev : ∀ i, i < k → ∃ ei, apiCall i = .error ei ∧
      isRateLimitError ei = true) :
    (withRetry apiCall mR iD bF jit).result = .error e ∧
    (withRetry apiCall mR iD bF jit).attemptsMade = k + 1 ∧
    (withRetry apiCall mR iD bF jit).delays.length = k := by
  exact withRetryLoop_first_nonRL apiCall mR iD bF jit k 0 mR none e hk
    (by simpa using hfail) hnot (by omega) (fun i hi => by simpa using hprev i hi)

/-- Witness for the amended C3 theorem: a unit of work that always fails with
`"boom"` (not rate-limit-classified) settles as `"boom"` after exactly one
invocation and no delays. -/
theorem withRetry_nonRL_immediate_witness :
    (withRetry (fun _ => (Except.error "boom" : Except String Unit))
      5 3000 2 (fun _ => 0)).result = .error "boom" ∧
    (withRetry (fun _ => (Except.error "boom" : Except String Unit))
      5 3000 2 (fun _ => 0)).attemptsMade = 0 + 1 ∧
    (withRetry (fun _ => (Except.error "boom" : Except String Unit))
      5 3000 2 (fun _ => 0)).delays.length = 0 :=
  withRetry_nonRL_immediate (fun _ => (Except.error "boom" : Except String Unit))
    5 3000 2 (fun _ => 0) 0 "boom" (by decide) rfl (by decide)
    (fun i hi => absurd hi (by omega))

theorem withRetryLoop_all_rateLimited {α : Type} (apiCall : Nat → Except String α)
    (mR iD bF : Nat) (jit : Nat → Nat) :
    ∀ (fuel attempt : Nat) (le : Option String),
      0 < fuel →
      attempt + fuel = mR →
      (∀ i, attempt ≤ i → i < mR → ∃ ei, apiCall i = .error ei ∧
        isRateLimitError ei = true) →
      (withRetryLoop apiCall mR iD bF jit le attempt fuel).result
        = .error rateLimitFinalMsg ∧
      (withRetryLoop apiCall mR iD bF jit le attempt fuel).attemptsMade = fuel ∧
      (withRetryLoop apiCall mR iD bF jit le attempt fuel).delays.length
        = fuel - 1 := by
  intro fuel
  induction fuel with
  | zero => intro attempt le h; omega
  | succ f ih =>
    intro attempt le _ hsum hall
    obtain ⟨e0, he0, hrl0⟩ := hall attempt (Nat.le_refl _) (by omega)
    by_cases heq : attempt = mR - 1
    · have hf : f = 0 := by omega
      subst hf
      simp only [withRetryLoop, he0, hrl0, if_true, if_pos heq]
      exact ⟨trivial, trivial, rfl⟩
    · have hf : 0 < f := by omega
      have ih' := ih (attempt + 1) (some e0) hf (by omega)
        (fun i hle hlt => hall i (by omega) hlt)
      simp only [withRetryLoop, he0, hrl0, if_true, if_neg heq]
      refine ⟨ih'.1, ?_, ?_⟩
      · simp [ih'.2.1]
      · simp [ih'.2.2]; omega

/-- C4: if every attempt of the unit of work fails with a
rate-limit-classified error and `maxAttempts = 5`, `withRetry` invokes the
unit of work exactly 5 times, sleeps only between attempts (4 delays, none
after the last), and settles with the user-facing "temporarily unavailable"
message (`rateLimitFinalMsg`, which indeed contains that phrase) in place of
the raw classified error. -/
theorem withRetry_exhausted_rateLimit {α : Type} (apiCall : Nat → Except String α)
    (iD bF : Nat) (jit : Nat → Nat)
    (hall : ∀ i, i < 5 → ∃ ei, apiCall i = .error ei ∧
      isRateLimitError ei = true) :
    (withRetry apiCall 5 iD bF jit).result = .error rateLimitFinalMsg ∧
    (withRetry apiCall 5 iD bF jit).attemptsMade = 5 ∧
    (withRetry apiCall 5 iD bF jit).delays.length = 4 ∧
    containsSub rateLimitFinalMsg "temporarily unavailable" = true := by
  have h := withRetryLoop_all_rateLimited apiCall 5 iD bF jit 5 0 none
    (by omega) (by omega) (fun i _ hlt => hall i hlt)
  exact ⟨h.1, h.2.1, h.2.2, by decide⟩

/-- Witness for the C4 theorem: five consecutive simulated 429 failures
(message `"429"`) end in the "temporarily unavailable" message after exactly
5 attempts. -/
theorem withRetry_exhausted_rateLimit_witness :
    (withRetry (fun _ => (Except.error "429" : Except String Unit))
      5 3000 2 (fun _ => 0)).result = .error rateLimitFinalMsg ∧
    (withRetry (fun _ => (Except.error "429" : Except String Unit))
      5 3000 2 (fun _ => 0)).attemptsMade = 5 ∧
    (withRetry (fun _ => (Except.error "429" : Except String Unit))
      5 3000 2 (fun _ => 0)).delays.length = 4 ∧
    containsSub rateLimitFinalMsg "temporarily unavailable" = true :=
  withRetry_exhausted_rateLimit (fun _ => (Except.error "429" : Except String Unit))
    3000 2 (fun _ => 0) (fun i _ => ⟨"429", rfl, by decide⟩)

/-! ## Service responses and the per-operation response interpretation

The response shape consumed by the six operations: zero or more candidates,
each with an optional finish reason, optional safety ratings and an optional
content-part list; plus the SDK's `response.text` accessor used by
`describeImage` and `analyzeArtReference` (modelled as an optional string —
it is `undefined` when the response carries no text). -/

/-- `part.inlineData`: an inline image (MIME type + base64 payload). -/
structure InlineData where
  mimeType : String
  data : String
deriving DecidableEq, Repr

/-- One response content block; the JS code tests `part.inlineData` first,
then `part.text` (an empty string is falsy and is skipped). -/
structure RespPart where
  inlineData : Option InlineData
  text : Option String
deriving DecidableEq, Repr

/-- One entry of `candidate.safetyRatings`. -/
structure SafetyRating where
  category : String
  blocked : Bool
deriving DecidableEq, Repr

/-- A response candidate.  `content` models `candidate.content?.parts`. -/
structure Candidate where
  finishReason : Option String
  safetyRatings : Option (List SafetyRating)
  content : Option (List RespPart)
deriving DecidableEq, Repr

/-- A raw service response. -/
structure Response where
  candidates : List Candidate
  text : Option String
deriving DecidableEq, Repr

/-- The `GeminiOutput` result type (`types.ts`). -/
structure GeminiOutput where
  imageUrl : Option String
  text : Option String
deriving DecidableEq, Repr

/-- `LIGHTING_STYLES` (`types.ts` lines 22–33). -/
def LIGHTING_STYLES : List String :=
  ["None", "Three-Point Lighting", "Rembrandt Lighting", "Split Lighting",
   "Loop Lighting", "Butterfly Lighting", "High-Key Lighting",
   "Low-Key Lighting", "Motivated Lighting", "Natural / Ambient Lighting"]

/-- `ArtReferenceAnalysis` (`types.ts` lines 154–159) as it comes out of the
unvalidated `JSON.parse` cast: each declared field is present (a string) or
`undefined`. -/
structure ArtReferenceAnalysis where
  styleDescription : Option String
  integrationPlan : Option String
  lightingStyle : Option String
  actionPrompt : Option String
deriving DecidableEq, Repr

/-- `s.replace(pat, repl)` on characters: replace the first occurrence. -/
def replaceOnceChars (pat repl : List Char) : List Char → List Char
  | [] => if charsStartsWith pat [] then repl else []
  | c :: rest =>
    if charsStartsWith pat (c :: rest) then repl ++ (c :: rest).drop pat.length
    else c :: replaceOnceChars pat repl rest

/-- `s.replace(pat, repl)` (JS `String.prototype.replace` with a string
pattern replaces only the first occurrence). -/
def replaceOnce (s pat repl : String) : String :=
  String.mk (replaceOnceChars pat.data repl.data s.data)

/-- The blocked-category text shared by the safety branches (e.g. lines
455–456): `firstCandidate.safetyRatings?.filter(r => r.blocked).map(r =>
r.category.replace('HARM_CATEGORY_', ''))`, then `?.join(', ') ||
'unspecified'` — an absent ratings list, an empty filter result, or a join
that yields the empty string all fall back to `"unspecified"`. -/
def blockedRatingsText (c : Candidate) : String :=
  match c.safetyRatings with
  | none => "unspecified"
  | some rs =>
    let j := joinSep ", "
      ((rs.filter (fun r => r.blocked)).map
        (fun r => replaceOnce r.category "HARM_CATEGORY_" ""))
    if j == "" then "unspecified" else j

/-- The data-URI built for an inline image part (e.g. line 467). -/
def dataUri (d : InlineData) : String :=
  "data:" ++ d.mimeType ++ ";base64," ++ d.data

/-- The shared output-collection loop (e.g. lines 464–472): scan the parts in
order; every inline image overwrites `imageUrl`; text blocks either
concatenate onto `text` (`output.text = (output.text || "") + part.text`,
composite-generate and face-swap) or overwrite it (`output.text = part.text`,
inpaint and reperspective) — `concatText` selects which of the two source
variants is modelled. -/
def scanParts (concatText : Bool) (parts : List RespPart) : GeminiOutput :=
  parts.foldl
    (fun out part =>
      match part.inlineData with
      | some d => { out with imageUrl := some (dataUri d) }
      | none =>
        match part.text with
        | some t =>
          if t == "" then out
          else if concatText then { out with text := some (out.text.getD "" ++ t) }
          else { out with text := some t }
        | none => out)
    ⟨none, none⟩

/-- The finish-reason gate shared by generate/inpaint/face-swap/reperspective
(e.g. lines 453–460): a truthy finish reason outside `{STOP, MAX_TOKENS}`
throws — the safety message (parameterized by the blocked-category text) for
`SAFETY`/`IMAGE_SAFETY`, the unexpected-reason message otherwise.  Returns the
thrown message, if any. -/
def finishGate (safetyMsg : String → String) (unexpectedMsg : String → String)
    (c : Candidate) : Option String :=
  match c.finishReason with
  | none => none
  | some fr =>
    if fr == "" then none
    else if fr == "STOP" || fr == "MAX_TOKENS" then none
    else if fr == "SAFETY" || fr == "IMAGE_SAFETY" then
      some (safetyMsg (blockedRatingsText c))
    else some (unexpectedMsg fr)

/-- The empty-response message shared by generate/inpaint/face-swap. -/
def emptyRespMsg : String :=
  "The AI returned an empty response, which may be due to a content policy violation or a server error."

/-- Response processing of `generateStudioPhoto` (lines 445–483), including
the surrounding `catch` which wraps every thrown message.  Takes the raw
response produced by the queued, retried network call. -/
def generateInterpret (r : Response) : Except String GeminiOutput :=
  Except.mapError
    (fun m => "An error occurred while communicating with the AI. Details: " ++ m)
    (match r.candidates.head? with
     | none => .error emptyRespMsg
     | some c =>
       match finishGate
           (fun cats => "Request blocked for safety reasons: " ++ cats ++
             ". This can sometimes happen with portraits. Try using a different reference image or adjusting your text prompts.")
           (fun fr => "Generation stopped for an unexpected reason: " ++ fr ++ ".")
           c with
       | some m => .error m
       | none =>
         let output := scanParts true (c.content.getD [])
         match output.imageUrl with
         | none => .error "The AI did not return an image. This can happen with unusual prompts. Please try again with a different prompt."
         | some _ => .ok output)

/-- Response processing of `inpaintImage` (lines 515–551): same shape, but
the text loop overwrites (`output.text = part.text`, line 538). -/
def inpaintInterpret (r : Response) : Except String GeminiOutput :=
  Except.mapError
    (fun m => "An error occurred during in-painting. Details: " ++ m)
    (match r.candidates.head? with
     | none => .error emptyRespMsg
     | some c =>
       match finishGate
           (fun cats => "In-painting request blocked for safety reasons: " ++ cats ++
             ". This can sometimes happen with portraits. Try using a different reference image or adjusting your text prompts.")
           (fun fr => "In-painting stopped for an unexpected reason: " ++ fr ++ ".")
           c with
       | some m => .error m
       | none =>
         let output := scanParts false (c.content.getD [])
         match output.imageUrl with
         | none => .error "The AI did not return an image for in-painting. Please try again."
         | some _ => .ok output)

/-- Response processing of `swapFace` (lines 721–757): note that its text
loop CONCATENATES (`output.text = (output.text || "") + part.text`, line
744), like composite-generate. -/
def swapFaceInterpret (r : Response) : Except String GeminiOutput :=
  Except.mapError
    (fun m => "An error occurred while swapping the face. Details: " ++ m)
    (match r.candidates.head? with
     | none => .error emptyRespMsg
     | some c =>
       match finishGate
           (fun cats => "Face swap request blocked for safety reasons: " ++ cats ++
             ". This can sometimes happen with portraits. Try using a different reference image.")
           (fun fr => "Face swap stopped for an unexpected reason: " ++ fr ++ ".")
           c with
       | some m => .error m
       | none =>
         let output := scanParts true (c.content.getD [])
         match output.imageUrl with
         | none => .error "The AI did not return an image for the face swap. Please try again."
         | some _ => .ok output)

/-- Response processing of `manipulateScene` (reperspective, lines 799–834):
the text loop overwrites (line 821). -/
def manipulateInterpret (r : Response) : Except String GeminiOutput :=
  Except.mapError
    (fun m => "An error occurred during scene manipulation. Details: " ++ m)
    (match r.candidates.head? with
     | none => .error "The AI returned an empty response, possibly due to a content policy violation."
     | some c =>
       match finishGate
           (fun cats => "Request blocked for safety reasons: " ++ cats ++
             ". Please adjust your prompt or use a different image.")
           (fun fr => "Generation stopped unexpectedly: " ++ fr ++ ".")
           c with
       | some m => .error m
       | none =>
         let output := scanParts false (c.content.getD [])
         match output.imageUrl with
         | none => .error "The AI did not return an image for scene manipulation."
         | some _ => .ok output)

/-- Response processing of `describeImage` (lines 573–588): the check is
`firstCandidate?.finishReason && firstCandidate.finishReason !== 'STOP'`, and
only the `SAFETY`/`IMAGE_SAFETY` sub-case throws; everything else falls
through to `return response.text`. -/
def describeInterpret (r : Response) : Except String (Option String) :=
  Except.mapError
    (fun m => "Failed to generate image description. Details: " ++ m)
    (match r.candidates.head? with
     | none => .ok r.text
     | some c =>
       match c.finishReason with
       | none => .ok r.text
       | some fr =>
         if fr == "" then .ok r.text
         else if fr == "STOP" then .ok r.text
         else if fr == "SAFETY" || fr == "IMAGE_SAFETY" then
           .error ("Image description blocked for safety reasons: " ++
             blockedRatingsText c ++ ". Please use a different image.")
         else .ok r.text)

/-- JS `String.prototype.trim` on the whitespace the model covers. -/
def trimStr (s : String) : String :=
  String.mk (skipWs ((skipWs s.data.reverse).reverse))

/-- `result.lightingStyle` lookup on the parsed JSON: a string field value,
otherwise "undefined". -/
def jStrField (fields : List (String × Json)) (k : String) : Option String :=
  match lookupLast fields k with
  | some (.str s) => some s
  | _ => none

/-- Response processing of `analyzeArtReference` (lines 655–671), including
the surrounding `catch`.  There is NO finish-reason / safety inspection in
this operation: the code goes straight to `response.text.trim()` and
`JSON.parse`.  When `response.text` is `undefined` (e.g. a safety-blocked
response with no content), `.trim()` throws a `TypeError` (modelled with V8's
wording); a non-JSON text makes `JSON.parse` throw a `SyntaxError` (modelled
with a fixed message); a parsed primitive makes the strict-mode write
`result.lightingStyle = 'None'` (on an invalid style) impossible — the
non-object case is modelled as the TypeError of that assignment.  On a parsed
object, the four declared fields are read and `lightingStyle` is replaced by
`'None'` unless it is a member of `LIGHTING_STYLES` (lines 661–664). -/
def analyzeInterpret (r : Response) : Except String ArtReferenceAnalysis :=
  Except.mapError
    (fun m => "Failed to analyze art reference. Details: " ++ m)
    (match r.text with
     | none => .error "Cannot read properties of undefined (reading \x27trim\x27)"
     | some txt =>
       match parseJsonStr (trimStr txt) with
       | none => .error "Unexpected token in JSON"
       | some (.obj fields) =>
         let result : ArtReferenceAnalysis :=
           { styleDescription := jStrField fields "styleDescription"
             integrationPlan := jStrField fields "integrationPlan"
             lightingStyle := jStrField fields "lightingStyle"
             actionPrompt := jStrField fields "actionPrompt" }
         match result.lightingStyle with
         | some s =>
           if LIGHTING_STYLES.contains s then .ok result
           else .ok { result with lightingStyle := some "None" }
         | none => .ok { result with lightingStyle := some "None" }
       | some _ => .error "Cannot create property \x27lightingStyle\x27 on a primitive value")

/-- `result.lightingStyle` as parsed, before the validation step. -/
def analyzeParsedLighting (r : Response) : Option String :=
  match r.text with
  | none => none
  | some txt =>
    match parseJsonStr (trimStr txt) with
    | some (.obj fields) => jStrField fields "lightingStyle"
    | _ => none

theorem mapError_ok_iff {ε ε' α : Type} (f : ε → ε') (x : Except ε α) (a : α) :
    Except.mapError f x = .ok a ↔ x = .ok a := by
  cases x <;> simp [Except.mapError]

/-- C5 (amended): for the five operations that inspect the finish reason —
composite-generate, inpaint, face-swap, reperspective and describe, i.e. all
six except analyze-reference — a response whose first candidate finishes with
`SAFETY` or `IMAGE_SAFETY` makes the interpretation fail with that
operation's safety-blocked message, which carries the blocked-category list
(`blockedRatingsText`, falling back to "unspecified"), and never produces an
`Output`.  `analyzeArtReference` performs no finish-reason inspection at all
and surfaces a generic analysis failure instead (see the counterexample). -/
theorem safety_finish_always_blocks (r : Response) (c : Candidate)
    (cs : List Candidate) (fr : String)
    (hc : r.candidates = c :: cs)
    (hfr : c.finishReason = some fr)
    (hs : fr = "SAFETY" ∨ fr = "IMAGE_SAFETY") :
    generateInterpret r = .error
      ("An error occurred while communicating with the AI. Details: " ++
        ("Request blocked for safety reasons: " ++ blockedRatingsText c ++
          ". This can sometimes happen with portraits. Try using a different reference image or adjusting your text prompts.")) ∧
    inpaintInterpret r = .error
      ("An error occurred during in-painting. Details: " ++
        ("In-painting request blocked for safety reasons: " ++ blockedRatingsText c ++
          ". This can sometimes happen with portraits. Try using a different reference image or adjusting your text prompts.")) ∧
    swapFaceInterpret r = .error
      ("An error occurred while swapping the face. Details: " ++
        ("Face swap request blocked for safety reasons: " ++ blockedRatingsText c ++
          ". This can sometimes happen with portraits. Try using a different reference image.")) ∧
    manipulateInterpret r = .error
      ("An error occurred during scene manipulation. Details: " ++
        ("Request blocked for safety reasons: " ++ blockedRatingsText c ++
          ". Please adjust your prompt or use a different image.")) ∧
    describeInterpret r = .error
      ("Failed to generate image description. Details: " ++
        ("Image description blocked for safety reasons: " ++ blockedRatingsText c ++
          ". Please use a different image.")) := by
  rcases hs with h | h <;> subst h <;>
    exact ⟨by simp [generateInterpret, finishGate, hc, hfr, Except.mapError],
      by simp [inpaintInterpret, finishGate, hc, hfr, Except.mapError],
      by simp [swapFaceInterpret, finishGate, hc, hfr, Except.mapError],
      by simp [manipulateInterpret, finishGate, hc, hfr, Except.mapError],
      by simp [describeInterpret, hc, hfr, Except.mapError]⟩

/-- Witness for the amended C5 theorem at a concrete `IMAGE_SAFETY` response
with one blocked `HARM_CATEGORY_HARASSMENT` rating. -/
theorem safety_finish_always_blocks_witness :
    generateInterpret
        ⟨[⟨some "IMAGE_SAFETY", some [⟨"HARM_CATEGORY_HARASSMENT", true⟩], none⟩], none⟩
      = .error
      ("An error occurred while communicating with the AI. Details: " ++
        ("Request blocked for safety reasons: " ++
          blockedRatingsText ⟨some "IMAGE_SAFETY", some [⟨"HARM_CATEGORY_HARASSMENT", true⟩], none⟩ ++
          ". This can sometimes happen with portraits. Try using a different reference image or adjusting your text prompts.")) ∧
    inpaintInterpret
        ⟨[⟨some "IMAGE_SAFETY", some [⟨"HARM_CATEGORY_HARASSMENT", true⟩], none⟩], none⟩
      = .error
      ("An error occurred during in-painting. Details: " ++
        ("In-painting request blocked for safety reasons: " ++
          blockedRatingsText ⟨some "IMAGE_SAFETY", some [⟨"HARM_CATEGORY_HARASSMENT", true⟩], none⟩ ++
          ". This can sometimes happen with portraits. Try using a different reference image or adjusting your text prompts.")) ∧
    swapFaceInterpret
        ⟨[⟨some "IMAGE_SAFETY", some [⟨"HARM_CATEGORY_HARASSMENT", true⟩], none⟩], none⟩
      = .error
      ("An error occurred while swapping the face. Details: " ++
        ("Face swap request blocked for safety reasons: " ++
          blockedRatingsText ⟨some "IMAGE_SAFETY", some [⟨"HARM_CATEGORY_HARASSMENT", true⟩], none⟩ ++
          ". This can sometimes happen with portraits. Try using a different reference image.")) ∧
    manipulateInterpret
        ⟨[⟨some "IMAGE_SAFETY", some [⟨"HARM_CATEGORY_HARASSMENT", true⟩], none⟩], none⟩
      = .error
      ("An error occurred during scene manipulation. Details: " ++
        ("Request blocked for safety reasons: " ++
          blockedRatingsText ⟨some "IMAGE_SAFETY", some [⟨"HARM_CATEGORY_HARASSMENT", true⟩], none⟩ ++
          ". Please adjust your prompt or use a different image.")) ∧
    describeInterpret
        ⟨[⟨some "IMAGE_SAFETY", some [⟨"HARM_CATEGORY_HARASSMENT", true⟩], none⟩], none⟩
      = .error
      ("Failed to generate image description. Details: " ++
        ("Image description blocked for safety reasons: " ++
          blockedRatingsText ⟨some "IMAGE_SAFETY", some [⟨"HARM_CATEGORY_HARASSMENT", true⟩], none⟩ ++
          ". Please use a different image.")) :=
  safety_finish_always_blocks
    ⟨[⟨some "IMAGE_SAFETY", some [⟨"HARM_CATEGORY_HARASSMENT", true⟩], none⟩], none⟩
    ⟨some "IMAGE_SAFETY", some [⟨"HARM_CATEGORY_HARASSMENT", true⟩], none⟩
    [] "IMAGE_SAFETY" rfl rfl (Or.inr rfl)

/-- C5 counterexample: `analyzeArtReference` is one of the six operations, yet
on a response whose (only) candidate finished with `SAFETY` — and which
therefore carries no text — it does not throw a safety-classified error
listing the blocked categories: `response.text` is `undefined`, so the code
fails inside `.trim()` and surfaces the generic analysis-failure wrapper,
which mentions neither the safety block nor the blocked category. -/
theorem analyze_safety_counterexample :
    analyzeInterpret
        ⟨[⟨some "SAFETY", some [⟨"HARM_CATEGORY_DANGEROUS_CONTENT", true⟩], none⟩], none⟩
      = .error "Failed to analyze art reference. Details: Cannot read properties of undefined (reading \x27trim\x27)" ∧
    containsSub "Failed to analyze art reference. Details: Cannot read properties of undefined (reading \x27trim\x27)"
      "blocked for safety reasons" = false ∧
    containsSub "Failed to analyze art reference. Details: Cannot read properties of undefined (reading \x27trim\x27)"
      "DANGEROUS_CONTENT" = false := by
  refine ⟨rfl, by decide, by decide⟩

theorem strEmptyAppend (s : String) : "" ++ s = s := by
  cases s with
  | mk l => rfl

/-- C9 (amended): interpreting a successful response (finish reason `STOP`)
holding two non-empty text blocks and one inline image: the inpaint and
reperspective loops overwrite the output text with each successive text block
(the result carries only the last block `b`), while BOTH composite-generate
and face-swap concatenate (`a ++ b`).  The claim errs about face-swap, whose
loop concatenates like composite-generate (line 744) — see the
counterexample. -/
theorem text_accumulation_by_op (a b : String) (d : InlineData)
    (ha : a ≠ "") (hb : b ≠ "") :
    inpaintInterpret
        ⟨[⟨some "STOP", none, some [⟨none, some a⟩, ⟨none, some b⟩, ⟨some d, none⟩]⟩], none⟩
      = .ok ⟨some (dataUri d), some b⟩ ∧
    manipulateInterpret
        ⟨[⟨some "STOP", none, some [⟨none, some a⟩, ⟨none, some b⟩, ⟨some d, none⟩]⟩], none⟩
      = .ok ⟨some (dataUri d), some b⟩ ∧
    swapFaceInterpret
        ⟨[⟨some "STOP", none, some [⟨none, some a⟩, ⟨none, some b⟩, ⟨some d, none⟩]⟩], none⟩
      = .ok ⟨some (dataUri d), some (a ++ b)⟩ ∧
    generateInterpret
        ⟨[⟨some "STOP", none, some [⟨none, some a⟩, ⟨none, some b⟩, ⟨some d, none⟩]⟩], none⟩
      = .ok ⟨some (dataUri d), some (a ++ b)⟩ := by
  refine ⟨?_, ?_, ?_, ?_⟩ <;>
    simp [inpaintInterpret, manipulateInterpret, swapFaceInterpret,
      generateInterpret, finishGate, scanParts, ha, hb, Except.mapError,
      strEmptyAppend]

/-- Witness for the C9 theorem at `a = "x"`, `b = "y"` and a PNG image
part. -/
theorem text_accumulation_by_op_witness :
    inpaintInterpret
        ⟨[⟨some "STOP", none, some [⟨none, some "x"⟩, ⟨none, some "y"⟩, ⟨some ⟨"image/png", "IMG"⟩, none⟩]⟩], none⟩
      = .ok ⟨some (dataUri ⟨"image/png", "IMG"⟩), some "y"⟩ ∧
    manipulateInterpret
        ⟨[⟨some "STOP", none, some [⟨none, some "x"⟩, ⟨none, some "y"⟩, ⟨some ⟨"image/png", "IMG"⟩, none⟩]⟩], none⟩
      = .ok ⟨some (dataUri ⟨"image/png", "IMG"⟩), some "y"⟩ ∧
    swapFaceInterpret
        ⟨[⟨some "STOP", none, some [⟨none, some "x"⟩, ⟨none, some "y"⟩, ⟨some ⟨"image/png", "IMG"⟩, none⟩]⟩], none⟩
      = .ok ⟨some (dataUri ⟨"image/png", "IMG"⟩), some ("x" ++ "y")⟩ ∧
    generateInterpret
        ⟨[⟨some "STOP", none, some [⟨none, some "x"⟩, ⟨none, some "y"⟩, ⟨some ⟨"image/png", "IMG"⟩, none⟩]⟩], none⟩
      = .ok ⟨some (dataUri ⟨"image/png", "IMG"⟩), some ("x" ++ "y")⟩ :=
  text_accumulation_by_op "x" "y" ⟨"image/png", "IMG"⟩ (by decide) (by decide)

/-- C9 counterexample: on a `STOP` response with text blocks `"alpha"` then
`"beta"` (and an image), the face-swap interpretation yields the CONCATENATED
text `"alphabeta"`, not — as the claim states for face-swap — only the last
block `"beta"`. -/
theorem swapFace_concatenates_counterexample :
    swapFaceInterpret
        ⟨[⟨some "STOP", none, some [⟨none, some "alpha"⟩, ⟨none, some "beta"⟩, ⟨some ⟨"image/png", "IMG"⟩, none⟩]⟩], none⟩
      = .ok ⟨some "data:image/png;base64,IMG", some "alphabeta"⟩ ∧
    ("alphabeta" == "beta") = false := by
  refine ⟨rfl, by decide⟩

/-- C10: every `ArtReferenceAnalysis` successfully returned by
`analyzeArtReference` has a `lightingStyle` that is a member of
`LIGHTING_STYLES`; in particular, whenever the parsed response carried a
`lightingStyle` outside the list, it has been replaced by `'None'` before the
result is returned. -/
theorem analyze_lightingStyle_validated (r : Response) (res : ArtReferenceAnalysis)
    (h : analyzeInterpret r = .ok res) :
    (∃ s, res.lightingStyle = some s ∧ s ∈ LIGHTING_STYLES) ∧
    (∀ raw, analyzeParsedLighting r = some raw → raw ∉ LIGHTING_STYLES →
      res.lightingStyle = some "None") := by
  unfold analyzeInterpret at h
  rw [mapError_ok_iff] at h
  cases ht : r.text with
  | none => simp only [ht] at h; simp at h
  | some txt =>
    simp only [ht] at h
    cases hp : parseJsonStr (trimStr txt) with
    | none => simp only [hp] at h; simp at h
    | some j =>
      simp only [hp] at h
      cases j with
      | obj fields =>
        simp only at h
        constructor
        · cases hl : jStrField fields "lightingStyle" with
          | none =>
            simp only [hl] at h
            rw [Except.ok.injEq] at h
            exact ⟨"None", by rw [← h], by simp [LIGHTING_STYLES]⟩
          | some s =>
            simp only [hl] at h
            by_cases hmem : LIGHTING_STYLES.contains s
            · rw [if_pos hmem, Except.ok.injEq] at h
              refine ⟨s, by rw [← h], ?_⟩
              simpa using hmem
            · rw [if_neg hmem, Except.ok.injEq] at h
              exact ⟨"None", by rw [← h], by simp [LIGHTING_STYLES]⟩
        · intro raw hraw hnmem
          have hraw' : jStrField fields "lightingStyle" = some raw := by
            simpa [analyzeParsedLighting, ht, hp] using hraw
          simp only [hraw'] at h
          have hmem : ¬ LIGHTING_STYLES.contains raw = true := by
            simpa using hnmem
          rw [if_neg hmem, Except.ok.injEq] at h
          rw [← h]
      | null => simp at h
      | bool b => simp at h
      | num n => simp at h
      | str s => simp at h
      | arr xs => simp at h

/-- Witness for the C10 theorem: a response whose JSON body carries the
out-of-list value `"Weird Glow"` yields an analysis whose `lightingStyle` was
replaced by `'None'` — a member of `LIGHTING_STYLES`. -/
theorem analyze_lightingStyle_validated_witness :
    (∃ s, (ArtReferenceAnalysis.mk none none (some "None") none).lightingStyle
        = some s ∧ s ∈ LIGHTING_STYLES) ∧
    (∀ raw, analyzeParsedLighting
        ⟨[], some "\x7b\"lightingStyle\": \"Weird Glow\"\x7d"⟩ = some raw →
      raw ∉ LIGHTING_STYLES →
      (ArtReferenceAnalysis.mk none none (some "None") none).lightingStyle
        = some "None") :=
  analyze_lightingStyle_validated
    ⟨[], some "\x7b\"lightingStyle\": \"Weird Glow\"\x7d"⟩
    (ArtReferenceAnalysis.mk none none (some "None") none)
    rfl

/-! ## The prompt synthesizer

The content blocks sent to the service.  `fileToGenerativePart` (lines
161–168) turns an `ImageFile` into an inline-data block. -/

/-- `ImageFile` (`types.ts` lines 2–6). -/
structure ImageFile where
  base64 : String
  mimeType : String
  previewUrl : String
deriving DecidableEq, Repr

/-- A request content block: a text fragment or an inline image. -/
inductive PromptPart where
  | text (s : String)
  | inlineData (data mimeType : String)
deriving DecidableEq, Repr

/-- `fileToGenerativePart` (lines 161–168). -/
def fileToGenerativePart (f : ImageFile) : PromptPart :=
  .inlineData f.base64 f.mimeType

/-- `GenerateStudioPhotoParams` (lines 170–210).  Enumerated TS union types
are carried as their string values; `exposureTenths` models the `exposure`
slider value in tenths of an EV (the UI steps it by 0.1), so that
`exposure.toFixed(1)` and the sign tests are exact. -/
structure GenerateStudioPhotoParams where
  sourceImage : ImageFile
  subjectMode : String
  subjectPrompt : String
  faceReferenceImage : Option ImageFile
  dressImage : Option ImageFile
  dressPrompt : String
  objectImage : Option ImageFile
  backgroundImage : Option ImageFile
  backgroundPrompt : String
  backgroundMode : String
  stylePrompt : String
  artReferenceImage : Option ImageFile
  artReferencePrompt : String
  artStyleInfluence : Nat
  subjectInfluence : Nat
  surprise : Nat
  integrationAnalysis : String
  lightingStyle : String
  perspectiveDistance : String
  perspectiveAngle : String
  perspectivePOV : String
  perspectiveMovement : String
  perspectiveLens : String
  useArtReferenceLighting : Bool
  useArtReferenceSkin : Bool
  flyerText : String
  thumbnailText : String
  skinTexture : String
  highlightStyle : String
  highlightIntensity : String
  aperture : String
  shutterSpeed : String
  iso : String
  focusMode : String
  manualFocusSubject : String
  exposureTenths : Int
  lensType : String
  shootingMode : String
  lightingTemperature : Nat
deriving DecidableEq, Repr

/-- `subjectMode === 'single' ? 'person' : 'person(s)'` (line 286). -/
def subjectNoun (p : GenerateStudioPhotoParams) : String :=
  if p.subjectMode == "single" then "person" else "person(s)"

/-- The subject-influence directive emitted when an art reference is present
(line 298): one fixed sentence block explaining the whole 0–100 scale,
parameterized only by the influence value and the subject noun. -/
def influenceDirective (p : GenerateStudioPhotoParams) : String :=
  "- **CRITICAL - SUBJECT INFLUENCE " ++ toString p.subjectInfluence ++
    "/100:** You MUST retain the subject\x27s identity. A value of 100 requires a perfect, photorealistic match to the original " ++
    subjectNoun p ++
    ". A lower value allows for more artistic interpretation of their features to better match the art style, while still ensuring the " ++
    subjectNoun p ++
    " is/are recognizable. This is your most important instruction."

/-- `subjectMode === 'single' ? 'subject' : 'subjects'` (line 287). -/
def subjectNounPlural (p : GenerateStudioPhotoParams) : String :=
  if p.subjectMode == "single" then "subject" else "subjects"

/-- The master prompt (line 290). -/
def masterInstruction : String :=
  "You are an expert AI photo editor and virtual photographer. Your goal is to create a single, high-quality image based on a set of input images and text instructions. You will be provided with images labeled like [Subject], [Art Style], etc. You must use these labels to understand which image to use for which purpose."

/-- Section 1, `subjectInstructions` (lines 295–301): the five entries, with
the nullable ones as `Option`s, then `.filter(Boolean).join('\n')`. -/
def subjectInstructions (p : GenerateStudioPhotoParams) : String :=
  joinSep "\n" (List.filterMap id
    [some "\n**1. SUBJECT & IDENTITY (PARAMOUNT PRIORITY)**",
     some ("- The " ++ subjectNoun p ++ " in the [Subject] image is/are your primary subject."),
     some (match p.artReferenceImage with
       | some _ => influenceDirective p
       | none =>
         "- **CRITICAL:** You MUST perfectly preserve their facial features, structure, and identity. The final image must be unmistakably the same " ++
           subjectNoun p ++ "."),
     (if p.subjectPrompt == "" then none else
       some ("- Apply these modifications to the " ++ subjectNounPlural p ++
         ", while maintaining their identity: \"" ++ p.subjectPrompt ++ "\".")),
     (match p.faceReferenceImage with
       | some _ => some "- **CRITICAL FACE OVERRIDE:** The [Face Reference] image provides the definitive likeness of the subject. Use this image to ensure the face is a perfect match, overriding the face from the [Subject] image if necessary."
       | none => none)])

/-- Section 2, `artStylePrompts` (lines 306–325, emitted only when an art
reference is present): entries pushed in order, `''` entries modelled as
`none`, then `.filter(Boolean).join('\n')`. -/
def artStyleSection (p : GenerateStudioPhotoParams) : String :=
  joinSep "\n" (List.filterMap id
    ([some "\n**2. ART STYLE APPLICATION**",
      some "- Analyze the [Art Style] image. Your task is to re-imagine the subject(s) in this distinct artistic style.",
      (if p.artReferencePrompt == "" then none else
        some ("- The style is described as: \"" ++ p.artReferencePrompt ++ "\".")),
      some ("- **Style Influence:** Apply the reference style with an influence level of **" ++
        toString p.artStyleInfluence ++
        "/100**. A value of 100 means a complete transformation into the reference style, while still preserving the subject\x27s recognizable identity."),
      some ("- **Creative Freedom (Surprise):** You have a creative freedom level of **" ++
        toString p.surprise ++
        "/100**. A value of 0 means strict adherence to instructions; 100 grants maximum artistic liberty."),
      (if p.integrationAnalysis == "" then none else
        some ("- **Execution Plan:** Follow this user-approved plan: \"" ++ p.integrationAnalysis ++ "\""))]
     ++ (if p.useArtReferenceSkin then
          [some "- **CRITICAL - SKIN & HIGHLIGHT MATCH:** Analyze the skin texture and highlights on the person in the [Art Style] image. Apply this exact skin finish to the main subject(s), but **you MUST preserve the subject\x27s original skin tone and color**. This is a texture/finish matching instruction only."]
         else [])
     ++ (if p.useArtReferenceLighting then
          [some "- **CRITICAL - LIGHTING MATCH:** Apply the lighting from the [Art Style] image (color, shadows, direction) perfectly to the subject(s)."]
         else [])
     ++ [some "- **IMPORTANT:** DO NOT simply copy or output the [Art Style] image. The final image must be a **new creation** that **fuses** the subject(s) from the [Subject] image with the style of the [Art Style] image."]))

/-- Section 3, `compoInstructions` (lines 329–344). -/
def compoList (p : GenerateStudioPhotoParams) : List String :=
  (match p.dressImage with
   | some _ =>
     ["\n**Outfit:**\n- From the [Outfit] image, you must extract **ONLY THE CLOTHING/OUTFIT**.\n- **STRICTLY IGNORE EVERYTHING ELSE** in the [Outfit] image: the person, the background, the pose, accessories, etc. Your only focus is the **GARMENT** itself.\n- Apply this extracted outfit naturally onto the main subject(s)."]
     ++ (if p.dressPrompt == "" then [] else
          ["- Apply these modifications to the outfit: \"" ++ p.dressPrompt ++ "\"."])
   | none => [])
  ++ (match p.objectImage with
      | some _ => ["\n**Object:**\n- From the [Object] image, identify any non-clothing objects and incorporate them naturally into the scene with the subject(s)."]
      | none => [])
  ++ (if p.backgroundMode == "upload" && p.backgroundImage.isSome then
        ["\n**Background:**\n- Use the [Background] image as the new background."]
        ++ (if p.backgroundPrompt == "" then [] else
             ["- Apply these modifications to the background: \"" ++ p.backgroundPrompt ++ "\"."])
      else if p.backgroundMode == "describe" && !(p.backgroundPrompt == "") then
        ["\n**Background:**\n- Create a new background based on this description: \"" ++ p.backgroundPrompt ++ "\"."]
      else if p.backgroundMode == "random" then
        ["\n**Background:**\n- Generate a random, photorealistic, professional studio background that complements the subject(s)."]
      else [])

/-- Section 4, `finalTouches` (lines 350–370). -/
def finalTouchesList (p : GenerateStudioPhotoParams) : List String :=
  (if !(p.lightingStyle == "") && !(p.lightingStyle == "None") && !p.useArtReferenceLighting then
    ["- **CRITICAL LIGHTING:** Apply a professional \"" ++ p.lightingStyle ++ "\" lighting setup to the entire scene. This must define the mood and shadows."]
   else [])
  ++ (if !p.useArtReferenceSkin then
       (if p.skinTexture == "Professional Dodge & Burn" then
         ["- **SKIN RETOUCHING:** Apply a professional \x27dodge and burn\x27 retouching technique to the subject\x27s skin to enhance contours, add depth, and create a sculpted, high-end look."]
        else if p.skinTexture == "Professional Frequency Separation" then
         ["- **SKIN RETOUCHING:** Apply a professional \x27frequency separation\x27 retouching technique. This involves separating skin texture from color/tone to perfectly smooth blemishes and transitions while preserving hyper-realistic skin texture."]
        else if !(p.skinTexture == "") && !(p.skinTexture == "None") then
         ["- **SKIN TEXTURE:** Render the subject\x27s skin with a \"" ++ p.skinTexture ++ "\" texture. Ensure it looks natural and maintains the original skin tone under consistent lighting."]
        else [])
       ++ (if !(p.highlightStyle == "") && !(p.highlightStyle == "None") &&
             !(p.highlightIntensity == "") && !(p.highlightIntensity == "None") then
            ["- **SKIN HIGHLIGHTS:** Apply \"" ++ p.highlightStyle ++ "\" highlights to the skin at a \"" ++ p.highlightIntensity ++ "\" intensity."]
           else [])
      else [])
  ++ (if p.stylePrompt == "" then [] else
       ["- **ADDITIONAL EFFECTS:** Render the final image incorporating this style: \"" ++ p.stylePrompt ++ "\"."])

/-- `(exposure).toFixed(1)` on a value carried in tenths of an EV. -/
def toFixed1 (tenths : Int) : String :=
  (if tenths < 0 then "-" else "") ++ toString (tenths.natAbs / 10) ++ "." ++
    toString (tenths.natAbs % 10)

/-- `focusMode.toLowerCase()` (ASCII). -/
def strToLower (s : String) : String :=
  String.mk (s.data.map Char.toLower)

/-- The three-way colour-temperature description (lines 388–390). -/
def tempDesc (p : GenerateStudioPhotoParams) : String :=
  if p.lightingTemperature < 4000 then "warm, tungsten-like"
  else if p.lightingTemperature > 6500 then "cool, overcast-like"
  else "neutral daylight"

/-- Section 5, `cameraDetails` (lines 376–401).  Note that the colour
temperature entry (line 391) is pushed UNCONDITIONALLY, so this list is never
empty. -/
def cameraDetailsList (p : GenerateStudioPhotoParams) : List String :=
  (if !(p.shootingMode == "") && !(p.shootingMode == "None") then
    ["Shooting Style: " ++ p.shootingMode] else [])
  ++ (if !(p.lensType == "") && !(p.lensType == "None") then
       ["Lens: " ++ p.lensType] else [])
  ++ (if !(p.perspectiveDistance == "") && !(p.perspectiveDistance == "None") then
       ["Framing/Distance: " ++ p.perspectiveDistance] else [])
  ++ (if !(p.perspectiveAngle == "") && !(p.perspectiveAngle == "None") then
       ["Angle/Tilt: " ++ p.perspectiveAngle] else [])
  ++ (if !(p.perspectivePOV == "") && !(p.perspectivePOV == "None") then
       ["Point of View: " ++ p.perspectivePOV] else [])
  ++ (if !(p.perspectiveMovement == "") && !(p.perspectiveMovement == "None") then
       ["Camera Movement: " ++ p.perspectiveMovement] else [])
  ++ (if !(p.perspectiveLens == "") && !(p.perspectiveLens == "None") then
       ["Lens/Creative Style: " ++ p.perspectiveLens] else [])
  ++ (if !(p.aperture == "") && !(p.aperture == "None") then
       ["Aperture: " ++ p.aperture ++ " (a low f-number like f/1.8 creates a very blurry background; a high f-number like f/16 keeps everything in focus)"] else [])
  ++ (if !(p.shutterSpeed == "") && !(p.shutterSpeed == "None") then
       ["Shutter Speed: " ++ p.shutterSpeed ++ " (a slow speed like 1s can create motion blur; a fast speed like 1/1000s freezes action)"] else [])
  ++ (if !(p.iso == "") && !(p.iso == "None") then
       ["ISO: " ++ p.iso ++ " (a high ISO like 6400 introduces noticeable film grain; a low ISO like 100 is clean)"] else [])
  ++ ["Color Temperature: " ++ toString p.lightingTemperature ++ "K (" ++ tempDesc p ++ " light)"]
  ++ (if p.focusMode == "Manual" && !(p.manualFocusSubject == "") then
       ["Focus: Manually set the sharpest point of focus on \"" ++ p.manualFocusSubject ++ "\""]
      else if !(p.focusMode == "Auto") && !(p.focusMode == "Manual") then
       ["Focus: Set the sharpest point of focus on the " ++ strToLower p.focusMode]
      else [])
  ++ (if p.exposureTenths == 0 then [] else
       ["Exposure Compensation: " ++ (if p.exposureTenths > 0 then "+" else "") ++
        toFixed1 p.exposureTenths ++ " EV (" ++
        (if p.exposureTenths > 0 then "brighter" else "darker") ++ " image)"])

/-- The assembled `instructionSet` (lines 285–408): master prompt, subject
section, then each numbered section only when its gate holds, and the
always-present final-output requirement. -/
def instructionSet (p : GenerateStudioPhotoParams) : List String :=
  [masterInstruction, subjectInstructions p]
  ++ (match p.artReferenceImage with
      | some _ => [artStyleSection p]
      | none => [])
  ++ (if (compoList p).length > 0 then
       ["\n**3. COMPOSITION & SCENE**" ++ joinSep "\n" (compoList p)] else [])
  ++ (if (finalTouchesList p).length > 0 then
       ["\n**4. FINAL STYLIZATION**\n" ++ joinSep "\n" (finalTouchesList p)] else [])
  ++ (if (cameraDetailsList p).length > 0 then
       ["\n**5. CAMERA & LENS SETTINGS**\n- **CRITICAL:** Simulate a professional camera with these settings: " ++
         joinSep "; " (cameraDetailsList p) ++ "."] else [])
  ++ ["\n**FINAL OUTPUT REQUIREMENTS**\n- Combine all elements into a single, cohesive, high-quality image, prioritizing the subject\x27s identity above all."]

/-- `instructionSet.join('\n')` (line 411). -/
def generateInstructionText (p : GenerateStudioPhotoParams) : String :=
  joinSep "\n" (instructionSet p)

/-- The flyer-design template (lines 267–272). -/
def flyerInstructions (p : GenerateStudioPhotoParams) : String :=
  "You are an expert graphic designer creating a professional promotional flyer.\n- **Primary Task:** Your main goal is to create a visually appealing flyer.\n- **Subject Integration:** The provided image contains the main subject(s). You MUST perfectly preserve their identity and creatively integrate them into the flyer design.\n- **Text Content:** The flyer MUST include the following text. Find a creative and legible way to display it: \"" ++
    p.flyerText ++
    "\".\n- **Style:** The overall style should be professional, modern, and eye-catching.\n- **Output:** The final image MUST be a cohesive, high-quality flyer. This is a critical instruction."

/-- The thumbnail-design template (lines 276–281). -/
def thumbnailInstructions (p : GenerateStudioPhotoParams) : String :=
  "You are a professional YouTube thumbnail designer. Your goal is to create a compelling, high-energy, clickable thumbnail.\n- **Primary Task:** Create an engaging thumbnail that grabs attention.\n- **Subject Integration:** The provided image is the main subject(s). You MUST preserve their identity and make them the focal point of the thumbnail.\n- **Text Content:** The thumbnail MUST include this text, making it bold, readable, and exciting: \"" ++
    p.thumbnailText ++
    "\".\n- **Style:** The design should be eye-catching, high-contrast, and follow modern social media trends.\n- **Output:** The final image must be a high-quality thumbnail. This is a critical instruction."

/-- A labelled image pair, as pushed by lines 415–434: the label text, then
the image — or nothing when the optional image is absent. -/
def optLabeled (label : String) (o : Option ImageFile) : List PromptPart :=
  match o with
  | some f => [.text label, fileToGenerativePart f]
  | none => []

/-- The full `parts` list assembled by `generateStudioPhoto` (lines 261–435):
the flyer/thumbnail templates are selected by `stylePrompt.includes(...)`;
otherwise the instruction text is followed by the labelled images in the
fixed order subject, face-reference, art-style, outfit, object, background
(the background image only in `upload` mode). -/
def generateParts (p : GenerateStudioPhotoParams) : List PromptPart :=
  if containsSub p.stylePrompt "Flyer Design" then
    [.text (flyerInstructions p), fileToGenerativePart p.sourceImage]
  else if containsSub p.stylePrompt "Thumbnail Design" then
    [.text (thumbnailInstructions p), fileToGenerativePart p.sourceImage]
  else
    [.text (generateInstructionText p),
     .text "This is the [Subject] image:", fileToGenerativePart p.sourceImage]
    ++ optLabeled "This is the [Face Reference] image:" p.faceReferenceImage
    ++ optLabeled "This is the [Art Style] image:" p.artReferenceImage
    ++ optLabeled "This is the [Outfit] image:" p.dressImage
    ++ optLabeled "This is the [Object] image:" p.objectImage
    ++ (if p.backgroundMode == "upload" then
         optLabeled "This is the [Background] image:" p.backgroundImage
        else [])

/-- The `inpaintImage` parts (lines 501–505): instruction text, then the
source image, then the mask image — the mask follows the source image
DIRECTLY, with no text block in between. -/
def inpaintParts (sourceImage maskImage : ImageFile) (prompt : String) :
    List PromptPart :=
  [.text ("You are an expert AI photo editor. The user has provided an image, a mask, and a prompt. Your task is to regenerate ONLY the masked area of the image based on the prompt: \"" ++
    prompt ++
    "\". The masked area is indicated in the second image. The rest of the image must remain unchanged. Seamlessly blend the new content with the existing image."),
   fileToGenerativePart sourceImage,
   fileToGenerativePart maskImage]

/-- The `describeImage` parts (lines 565–570). -/
def describeParts (image : ImageFile) : List PromptPart :=
  [.text "Briefly describe the person or people in this photo in one short sentence, focusing on key visual features for an AI editor. For example: \"A young woman with blonde hair smiling.\" or \"A group of friends posing for a photo.\"",
   fileToGenerativePart image]

/-- `LIGHTING_STYLES.filter(s => s !== 'None').join('", "')` (line 603). -/
def analyzeStyleList : String :=
  joinSep "\", \"" (LIGHTING_STYLES.filter (fun s => !(s == "None")))

/-- The `analyzeArtReference` prompt (lines 605–615). -/
def analyzePromptText : String :=
  "You are an expert AI artist and prompt engineer analyzing two images: a [SUBJECT IMAGE] and an [ART STYLE IMAGE].\nYour task is to provide a complete analysis in a single JSON response.\n\n1.  **Analyze Art Style**: In one concise sentence, describe the artistic style of the [ART STYLE IMAGE]. Focus on medium, technique, mood, and color palette.\n2.  **Create Integration Plan**: In one or two concise sentences, describe your creative plan to integrate the subject person(s) into the art reference\x27s style, maintaining the subject\x27s identity.\n3.  **Identify Lighting Style**: Analyze the lighting in the [ART STYLE IMAGE]. Classify it into ONE of the following categories: \"" ++
    analyzeStyleList ++
    "\". If no specific style fits, choose the closest one.\n4.  **Generate Action Prompt**:\n    a. First, analyze the [ART STYLE IMAGE] and identify the primary action, pose, and emotion of the person.\n    b. Then, write a new, single, detailed, and evocative sentence describing the person/people from the [SUBJECT IMAGE] performing that exact action, pose, and emotion.\n\nProvide your response strictly in the requested JSON format, with no extra text or explanations."

/-- The `analyzeArtReference` parts (lines 620–626): here BOTH images are
immediately preceded by a labelling text block. -/
def analyzeParts (sourceImage artReferenceImage : ImageFile) : List PromptPart :=
  [.text analyzePromptText,
   .text "This is the [SUBJECT IMAGE]:", fileToGenerativePart sourceImage,
   .text "This is the [ART STYLE IMAGE]:", fileToGenerativePart artReferenceImage]

/-- The `swapFace` prompt (lines 688–705). -/
def swapFacePromptText : String :=
  "You are a world-class AI digital artist specializing in hyperrealistic and style-consistent portrait recreation. Your work is for artistic and creative purposes only.\n\n**Your Mission:**\nArtistically blend the facial identity from the **FACE SOURCE IMAGE** onto the subject in the **TARGET IMAGE**.\n\n**TARGET IMAGE (First Image):** This is the main image with the style, lighting, and composition that MUST be preserved.\n**FACE SOURCE IMAGE (Second Image):** This image provides the facial identity (features, structure, expression) that you must transfer.\n\n**Critical Directives (Non-negotiable):**\n1.  **Identity Preservation (Highest Priority):** The final portrait must be UNMISTAKABLY recognizable as the person from the FACE SOURCE IMAGE.\n2.  **Artistic Style Matching:** The recreated face MUST perfectly adopt the complete artistic style of the TARGET IMAGE. This includes:\n    - **Lighting:** Match the direction, color, and intensity of the light and shadows.\n    - **Color Grading:** Apply the exact same color palette and tone.\n    - **Texture:** Replicate any textures present, such as skin texture, paint strokes, film grain, or digital artifacts.\n    - **Effects:** If the TARGET IMAGE is a painting, cartoon, sketch, etc., the new face MUST be rendered in that same style.\n3.  **Seamless Integration:** The new face must blend FLAWLESSLY with the head, hair, and neck of the subject in the TARGET IMAGE. There should be no visible seams or artifacts.\n\nDo not alter the background, clothing, or body of the TARGET IMAGE. Your only task is this high-fidelity, style-aware portrait recreation."

/-- The `swapFace` parts (lines 707–711): prompt text, target image, then the
face-source image — again directly after another image, with no text block in
between. -/
def swapFaceParts (targetImage faceSourceImage : ImageFile) : List PromptPart :=
  [.text swapFacePromptText,
   fileToGenerativePart targetImage,
   fileToGenerativePart faceSourceImage]

/-- The `manipulateScene` (reperspective) parts (lines 774–789). -/
def manipulateParts (sourceImage : ImageFile) (prompt : String) :
    List PromptPart :=
  [.text ("You are an expert AI cinematographer. Your task is to re-render the provided image from a new camera perspective as described by the user.\n\n**Source Image:** The first image is the original scene.\n**User Prompt:** \"" ++
    prompt ++
    "\"\n\n**CRITICAL INSTRUCTIONS:**\n1.  **Recreate the Scene:** You must recreate the *exact same scene* from the source image. This includes all subjects, objects, clothing, and the environment.\n2.  **Change Perspective ONLY:** The only change you are allowed to make is the camera\x27s position, angle, or viewpoint as specified in the user\x27s prompt.\n3.  **Maintain Consistency:** Preserve the original image\x27s lighting, color palette, mood, and artistic style. The new image should feel like it was taken moments apart from the original, just from a different spot.\n4.  **Execute the Prompt:** Religiously follow the user\x27s prompt to define the new perspective.\n5.  **Output:** Produce a single, high-quality image that fulfills these requirements."),
   fileToGenerativePart sourceImage]

/-! ## Properties of the synthesized prompts (C6, C7, C8) -/

/-- The text carried by a parts list, in order (the "synthesized prompt"). -/
def partsText : List PromptPart → String
  | [] => ""
  | .text s :: rest => s ++ partsText rest
  | .inlineData _ _ :: rest => partsText rest

theorem charsStartsWith_append (pat as bs : List Char)
    (h : charsStartsWith pat as = true) :
    charsStartsWith pat (as ++ bs) = true := by
  induction pat generalizing as with
  | nil => simp [charsStartsWith]
  | cons c cs ih =>
    cases as with
    | nil => simp [charsStartsWith] at h
    | cons a as' =>
      simp only [charsStartsWith, Bool.and_eq_true] at h
      simp only [List.cons_append, charsStartsWith, Bool.and_eq_true]
      exact ⟨h.1, ih as' h.2⟩

theorem charsContainsSub_nil (s : List Char) :
    charsContainsSub [] s = true := by
  cases s <;> simp [charsContainsSub, charsStartsWith]

theorem charsContainsSub_append_left (pat as bs : List Char)
    (h : charsContainsSub pat as = true) :
    charsContainsSub pat (as ++ bs) = true := by
  induction as with
  | nil =>
    have hpat : pat = [] := by
      cases pat with
      | nil => rfl
      | cons c cs => simp [charsContainsSub, charsStartsWith] at h
    subst hpat
    exact charsContainsSub_nil _
  | cons a as' ih =>
    simp only [charsContainsSub, Bool.or_eq_true] at h
    simp only [List.cons_append, charsContainsSub, Bool.or_eq_true]
    rcases h with h | h
    · exact Or.inl (by
        have := charsStartsWith_append pat (a :: as') bs h
        simpa using this)
    · exact Or.inr (ih h)

theorem charsContainsSub_append_right (pat as bs : List Char)
    (h : charsContainsSub pat bs = true) :
    charsContainsSub pat (as ++ bs) = true := by
  induction as with
  | nil => simpa using h
  | cons a as' ih =>
    simp only [List.cons_append, charsContainsSub, Bool.or_eq_true]
    exact Or.inr ih

theorem containsSub_append_left (s t pat : String)
    (h : containsSub s pat = true) : containsSub (s ++ t) pat = true := by
  unfold containsSub at *
  rw [String.data_append]
  exact charsContainsSub_append_left _ _ _ h

theorem containsSub_append_right (s t pat : String)
    (h : containsSub t pat = true) : containsSub (s ++ t) pat = true := by
  unfold containsSub at *
  rw [String.data_append]
  exact charsContainsSub_append_right _ _ _ h

theorem containsSub_joinSep (sep pat x : String) (l : List String)
    (hx : x ∈ l) (h : containsSub x pat = true) :
    containsSub (joinSep sep l) pat = true := by
  induction l with
  | nil => cases hx
  | cons y ys ih =>
    rcases List.mem_cons.mp hx with heq | hmem
    · subst heq
      cases ys with
      | nil => simpa [joinSep] using h
      | cons z zs =>
        show containsSub (x ++ sep ++ joinSep sep (z :: zs)) pat = true
        exact containsSub_append_left _ _ _ (containsSub_append_left _ _ _ h)
    · cases ys with
      | nil => cases hmem
      | cons z zs =>
        show containsSub (y ++ sep ++ joinSep sep (z :: zs)) pat = true
        exact containsSub_append_right _ _ _ (ih hmem)

theorem contains_instruction_of_subject (p : GenerateStudioPhotoParams)
    (pat : String) (h : containsSub (subjectInstructions p) pat = true) :
    containsSub (generateInstructionText p) pat = true := by
  apply containsSub_joinSep _ _ (subjectInstructions p) _ ?_ h
  simp [instructionSet]

theorem contains_subject_of_influence (p : GenerateStudioPhotoParams)
    (a : ImageFile) (har : p.artReferenceImage = some a) (pat : String)
    (h : containsSub (influenceDirective p) pat = true) :
    containsSub (subjectInstructions p) pat = true := by
  unfold subjectInstructions
  apply containsSub_joinSep _ _ (influenceDirective p) _ ?_ h
  rw [har]
  simp [List.filterMap]

theorem contains_partsText_of_instruction (p : GenerateStudioPhotoParams)
    (hfl : containsSub p.stylePrompt "Flyer Design" = false)
    (hth : containsSub p.stylePrompt "Thumbnail Design" = false) (pat : String)
    (h : containsSub (generateInstructionText p) pat = true) :
    containsSub (partsText (generateParts p)) pat = true := by
  unfold generateParts
  rw [if_neg (by simp [hfl]), if_neg (by simp [hth])]
  simp only [List.append_assoc, List.cons_append, List.nil_append, partsText]
  exact containsSub_append_left _ _ _ h

/-- C6 (amended): whenever composite-generate runs with an art reference
image present (and the flyer/thumbnail templates are not selected), the
synthesized prompt contains BOTH the phrase mandating a perfect
photorealistic match for value 100 AND the phrase permitting artistic
reinterpretation for lower values: the subject-influence directive is one
fixed sentence block explaining the whole 0–100 scale, parameterized only by
the influence value, so the two phrasings always co-occur (and never occur at
all without an art reference, where the "preserve identity" directive is
emitted instead). -/
theorem influence_phrases_always_cooccur (p : GenerateStudioPhotoParams)
    (a : ImageFile)
    (har : p.artReferenceImage = some a)
    (hfl : containsSub p.stylePrompt "Flyer Design" = false)
    (hth : containsSub p.stylePrompt "Thumbnail Design" = false) :
    containsSub (partsText (generateParts p))
      "A value of 100 requires a perfect, photorealistic match" = true ∧
    containsSub (partsText (generateParts p))
      "allows for more artistic interpretation of their features" = true ∧
    containsSub (partsText (generateParts p))
      "- **CRITICAL - SUBJECT INFLUENCE " = true := by
  refine ⟨?_, ?_, ?_⟩ <;>
    apply contains_partsText_of_instruction p hfl hth <;>
    apply contains_instruction_of_subject <;>
    apply contains_subject_of_influence p a har
  · unfold influenceDirective
    apply containsSub_append_left
    apply containsSub_append_left
    apply containsSub_append_left
    apply containsSub_append_left
    apply containsSub_append_right
    decide
  · unfold influenceDirective
    apply containsSub_append_left
    apply containsSub_append_left
    apply containsSub_append_right
    decide
  · unfold influenceDirective
    apply containsSub_append_left
    apply containsSub_append_left
    apply containsSub_append_left
    apply containsSub_append_left
    apply containsSub_append_left
    apply containsSub_append_left
    decide

/-- A throw-away concrete image. -/
def demoImg : ImageFile :=
  { base64 := "SRC", mimeType := "image/png", previewUrl := "url" }

/-- The composite-generate parameter set with every field at its
default/empty/"None" value (the initial React state in `App.tsx`): only the
subject image is set; `backgroundMode` defaults to `'describe'`, `focusMode`
to `'Auto'`, the influence sliders to 75/75/25, exposure to 0 and the colour
temperature to 5500 K. -/
def defaultGenerateParams (img : ImageFile) : GenerateStudioPhotoParams :=
  { sourceImage := img
    subjectMode := "single"
    subjectPrompt := ""
    faceReferenceImage := none
    dressImage := none
    dressPrompt := ""
    objectImage := none
    backgroundImage := none
    backgroundPrompt := ""
    backgroundMode := "describe"
    stylePrompt := ""
    artReferenceImage := none
    artReferencePrompt := ""
    artStyleInfluence := 75
    subjectInfluence := 75
    surprise := 25
    integrationAnalysis := ""
    lightingStyle := "None"
    perspectiveDistance := "None"
    perspectiveAngle := "None"
    perspectivePOV := "None"
    perspectiveMovement := "None"
    perspectiveLens := "None"
    useArtReferenceLighting := false
    useArtReferenceSkin := false
    flyerText := ""
    thumbnailText := ""
    skinTexture := "None"
    highlightStyle := "None"
    highlightIntensity := "None"
    aperture := "None"
    shutterSpeed := "None"
    iso := "None"
    focusMode := "Auto"
    manualFocusSubject := ""
    exposureTenths := 0
    lensType := "None"
    shootingMode := "None"
    lightingTemperature := 5500 }

/-- Default parameters plus an art reference at subject-influence 100. -/
def c6Params : GenerateStudioPhotoParams :=
  { defaultGenerateParams demoImg with
      artReferenceImage := some demoImg
      subjectInfluence := 100 }

/-- Witness for the amended C6 theorem at subject-influence 100. -/
theorem influence_phrases_always_cooccur_witness :
    containsSub (partsText (generateParts c6Params))
      "A value of 100 requires a perfect, photorealistic match" = true ∧
    containsSub (partsText (generateParts c6Params))
      "allows for more artistic interpretation of their features" = true ∧
    containsSub (partsText (generateParts c6Params))
      "- **CRITICAL - SUBJECT INFLUENCE " = true :=
  influence_phrases_always_cooccur c6Params demoImg rfl (by decide) (by decide)

/-- C6 counterexample: with an art reference present and subject-influence =
100, the synthesized prompt contains the photorealistic-match mandate AND, in
the same prompt, the artistic-reinterpretation permission — the claim's
"the two phrasings never co-occur" is false. -/
theorem influence_phrases_cooccur_counterexample :
    containsSub (partsText (generateParts c6Params))
      "A value of 100 requires a perfect, photorealistic match" = true ∧
    containsSub (partsText (generateParts c6Params))
      "allows for more artistic interpretation of their features" = true := by
  constructor
  · apply contains_partsText_of_instruction c6Params (by decide) (by decide)
    apply contains_instruction_of_subject
    apply contains_subject_of_influence c6Params demoImg rfl
    unfold influenceDirective
    apply containsSub_append_left
    apply containsSub_append_left
    apply containsSub_append_left
    apply containsSub_append_left
    apply containsSub_append_right
    decide
  · apply contains_partsText_of_instruction c6Params (by decide) (by decide)
    apply contains_instruction_of_subject
    apply contains_subject_of_influence c6Params demoImg rfl
    unfold influenceDirective
    apply containsSub_append_left
    apply containsSub_append_left
    apply containsSub_append_right
    decide

set_option maxRecDepth 100000 in
set_option maxHeartbeats 4000000 in
/-- C7 (amended): composite-generate with only a subject image and every
other field at its default/empty/"None" value produces exactly three parts —
the instruction text, the `[Subject]` label and the single subject image (so
zero image blocks beyond the subject) — and the instruction text (which does
not depend on the image payload, hence checked at the concrete `demoImg`)
contains the master instruction, section 1 (subject & identity), the CAMERA &
LENS SETTINGS section (the colour-temperature directive is pushed
unconditionally at line 391, so this section is always emitted — here with
the neutral 5500 K entry as its only facet) and the final output requirement,
while the art style, composition and final stylization sections are
absent. -/
theorem default_prompt_sections (img : ImageFile) :
    generateParts (defaultGenerateParams img)
      = [.text (generateInstructionText (defaultGenerateParams img)),
         .text "This is the [Subject] image:", fileToGenerativePart img] ∧
    containsSub (generateInstructionText (defaultGenerateParams demoImg))
      "You are an expert AI photo editor and virtual photographer." = true ∧
    containsSub (generateInstructionText (defaultGenerateParams demoImg))
      "**1. SUBJECT & IDENTITY" = true ∧
    containsSub (generateInstructionText (defaultGenerateParams demoImg))
      "**5. CAMERA & LENS SETTINGS**" = true ∧
    containsSub (generateInstructionText (defaultGenerateParams demoImg))
      "Color Temperature: 5500K (neutral daylight light)" = true ∧
    containsSub (generateInstructionText (defaultGenerateParams demoImg))
      "**FINAL OUTPUT REQUIREMENTS**" = true ∧
    containsSub (generateInstructionText (defaultGenerateParams demoImg))
      "**2. ART STYLE APPLICATION**" = false ∧
    containsSub (generateInstructionText (defaultGenerateParams demoImg))
      "**3. COMPOSITION & SCENE**" = false ∧
    containsSub (generateInstructionText (defaultGenerateParams demoImg))
      "**4. FINAL STYLIZATION**" = false := by
  refine ⟨rfl, by decide, by decide, by decide, by decide, by decide,
    by decide, by decide, by decide⟩

set_option maxRecDepth 100000 in
set_option maxHeartbeats 4000000 in
/-- C7 counterexample: the all-defaults prompt does NOT consist of sections
1, 2 and 7 only — the camera & lens settings section is present (with exactly
one entry, the unconditional colour-temperature directive), contradicting "in
particular no camera & lens settings section". -/
theorem default_prompt_has_camera_counterexample :
    containsSub (generateInstructionText (defaultGenerateParams demoImg))
      "**5. CAMERA & LENS SETTINGS**" = true ∧
    cameraDetailsList (defaultGenerateParams demoImg)
      = ["Color Temperature: 5500K (neutral daylight light)"] := by
  refine ⟨by decide, by decide⟩

/-- `true` when the part is an inline image. -/
def isImagePart : PromptPart → Bool
  | .inlineData _ _ => true
  | .text _ => false

/-- Walk a parts list remembering whether the previous part was a text
block; an image part is acceptable only directly after a text block. -/
def labeledAfterText : Bool → List PromptPart → Bool
  | _, [] => true
  | _, .text _ :: rest => labeledAfterText true rest
  | prevIsText, .inlineData _ _ :: rest => prevIsText && labeledAfterText false rest

/-- Every image block is immediately preceded by a text block. -/
def imagesLabeled (ps : List PromptPart) : Bool :=
  labeledAfterText false ps

theorem labeled_chunk (l : String) (o : Option ImageFile)
    (rest : List PromptPart) :
    labeledAfterText false (optLabeled l o ++ rest)
      = labeledAfterText false rest := by
  cases o <;> simp [optLabeled, labeledAfterText]

theorem labeled_chunk_nil (l : String) (o : Option ImageFile) :
    labeledAfterText false (optLabeled l o) = true := by
  cases o <;> simp [optLabeled, labeledAfterText]

/-- C8 (amended): in the prompts of composite-generate (all three templates),
describe, analyze-reference and reperspective, every image block is
immediately preceded by a text block naming its role; but the invariant FAILS
for the two prompts the claim highlights: the inpaint prompt's second image
(the mask) and the face-swap prompt's second image (the face source) each
directly follow the first image, with no text block in between — their role
is fixed only by position, described in the leading instruction text. -/
theorem image_label_adjacency (p : GenerateStudioPhotoParams)
    (s m t f img a : ImageFile) (pr₁ pr₂ : String) :
    imagesLabeled (generateParts p) = true ∧
    imagesLabeled (describeParts img) = true ∧
    imagesLabeled (analyzeParts s a) = true ∧
    imagesLabeled (manipulateParts s pr₁) = true ∧
    imagesLabeled (inpaintParts s m pr₂) = false ∧
    imagesLabeled (swapFaceParts t f) = false := by
  refine ⟨?_, rfl, rfl, rfl, rfl, rfl⟩
  unfold imagesLabeled generateParts
  by_cases hfl : containsSub p.stylePrompt "Flyer Design" = true
  · rw [if_pos hfl]; rfl
  · rw [if_neg hfl]
    by_cases hth : containsSub p.stylePrompt "Thumbnail Design" = true
    · rw [if_pos hth]; rfl
    · rw [if_neg hth]
      simp only [List.append_eq, List.append_assoc, List.cons_append,
        List.nil_append, labeledAfterText, Bool.true_and]
      rw [labeled_chunk, labeled_chunk, labeled_chunk, labeled_chunk]
      by_cases hbg : p.backgroundMode == "upload"
      · rw [if_pos hbg]
        exact labeled_chunk_nil _ _
      · rw [if_neg hbg]
        rfl

/-- C8 counterexample: concretely, the inpaint parts are
`[text, image, image]` and the face-swap parts are `[text, image, image]` —
in both, the second image is immediately preceded by an IMAGE, not by a text
block naming its role, so the claimed invariant fails exactly at the two
places the claim singles out. -/
theorem unlabeled_second_image_counterexample :
    (inpaintParts demoImg demoImg "fill the area").map isImagePart
      = [false, true, true] ∧
    imagesLabeled (inpaintParts demoImg demoImg "fill the area") = false ∧
    (swapFaceParts demoImg demoImg).map isImagePart = [false, true, true] ∧
    imagesLabeled (swapFaceParts demoImg demoImg) = false := by
  exact ⟨rfl, rfl, rfl, rfl⟩

end StudioPhoto
